import Mathlib

set_option linter.unusedVariables false

/-!
Verification of the sanrio-characters design server.

Shallow embedding of `src/sanrio_characters/server.py` and
`src/sanrio_characters/tools/olog_loader.py`.  Python dicts are modelled
as insertion-ordered association lists, Python exceptions as an explicit
`Except` error channel, and the two pieces of process-global mutable
state touched by a request (the `random` module's generator and the
caller-supplied `design_intent` dict, which the server writes into) are
threaded explicitly.
-/

set_option autoImplicit false

namespace Sanrio

/-- A Python value as it can appear in a `design_intent` dict: the server
only ever calls `.lower()` on these, so the model distinguishes strings
from one representative non-string kind. -/
inductive PyVal where
  | pyStr : String → PyVal
  | pyInt : Int → PyVal
deriving DecidableEq

/-- The Python exceptions the request path of `server.py` can raise:
`IndexError` from `prompt_lower.split()[0]` and `AttributeError` from
calling `.lower()` on a non-string intent field. -/
inductive PyErr where
  | indexError : PyErr
  | attrError : PyErr
deriving DecidableEq

/-- `True` iff the value is a Python `str`. -/
def PyVal.isStr : PyVal → Bool
  | .pyStr _ => true
  | .pyInt _ => false

/-- A Python dict with string keys, as an insertion-ordered association
list (CPython 3.7+ dicts preserve insertion order). -/
abbrev Dict := List (String × PyVal)

/-- First binding of a key, mirroring Python dict lookup (keys are unique
in a real dict, so first = only). -/
def dictLookup : Dict → String → Option PyVal
  | [], _ => none
  | (k0, v0) :: rest, k => if k0 = k then some v0 else dictLookup rest k

/-- Python's `d.get(k, default)`. -/
def dictGet (d : Dict) (k : String) (dflt : PyVal) : PyVal :=
  (dictLookup d k).getD dflt

/-- Python's `d[k] = v`: overwrite in place when the key exists, append
otherwise (insertion-order semantics of CPython dicts). -/
def dictSet : Dict → String → PyVal → Dict
  | [], k, v => [(k, v)]
  | (k0, v0) :: rest, k, v =>
      if k0 = k then (k, v) :: rest else (k0, v0) :: dictSet rest k v

/-- ASCII lower-casing of one character (Python `.lower()` restricted to
the ASCII strings the server's cue words and ids consist of). -/
def asciiLowerChar (c : Char) : Char :=
  if 65 ≤ c.toNat ∧ c.toNat ≤ 90 then Char.ofNat (c.toNat + 32) else c

/-- ASCII upper-casing of one character. -/
def asciiUpperChar (c : Char) : Char :=
  if 97 ≤ c.toNat ∧ c.toNat ≤ 122 then Char.ofNat (c.toNat - 32) else c

/-- Python's `str.lower()` (ASCII). -/
def asciiLower (s : String) : String :=
  String.mk (s.data.map asciiLowerChar)

/-- Python's `.lower()` on a dict value: succeeds on `str`, raises
`AttributeError` on a non-string value. -/
def pyLower : PyVal → Except PyErr String
  | .pyStr s => .ok (asciiLower s)
  | .pyInt _ => .error .attrError

/-- `listStarts pat l` is `true` iff `pat` is an initial segment of `l`. -/
def listStarts : List Char → List Char → Bool
  | [], _ => true
  | _ :: _, [] => false
  | a :: as, b :: bs => a = b && listStarts as bs

/-- `hasSub pat l` is `true` iff `pat` occurs contiguously inside `l`. -/
def hasSub (pat : List Char) : List Char → Bool
  | [] => listStarts pat []
  | c :: rest => listStarts pat (c :: rest) || hasSub pat rest

/-- Python's substring test `pat in s`. -/
def strContains (s pat : String) : Bool :=
  hasSub pat.data s.data

/-- Tokeniser behind `pySplitWs`: the first argument accumulates the
current token (reversed), whitespace closes a token, empty pieces are
dropped — exactly Python's argument-less `split()`. -/
def wsSplit : List Char → List Char → List String
  | cur, [] => if cur = [] then [] else [String.mk cur.reverse]
  | cur, c :: rest =>
      if c.isWhitespace then
        if cur = [] then wsSplit [] rest
        else String.mk cur.reverse :: wsSplit [] rest
      else wsSplit (c :: cur) rest

/-- Python's argument-less `str.split()`: split on whitespace runs and
drop empty pieces. -/
def pySplitWs (s : String) : List String :=
  wsSplit [] s.data

/-- Python's `s[:n]`: the first `n` characters. -/
def strTake (s : String) (n : Nat) : String :=
  String.mk (s.data.take n)

/-- Python's `str.capitalize()`: first character upper-cased, the rest
lower-cased (ASCII). -/
def pyCapitalize (s : String) : String :=
  match s.data with
  | [] => ""
  | c :: cs => String.mk (asciiUpperChar c :: cs.map asciiLowerChar)

/-- Python's `.replace("_", " ")` on the instance ids. -/
def underscoreToSpace (s : String) : String :=
  String.mk (s.data.map fun c => if c = '_' then ' ' else c)

/-- Python's `"; ".join`-style separator join (`sep.join(parts)`). -/
def joinSep (sep : String) : List String → String
  | [] => ""
  | [x] => x
  | x :: y :: rest => x ++ sep ++ joinSep sep (y :: rest)

/-!
## Seed derivation (`seed = hash(user_prompt) % 100`, server.py line 225)

CPython's builtin `hash` on `str` is `pysiphash13` (CPython >= 3.11)
keyed by the per-process randomised hash secret `(k0, k1)`
(`PYTHONHASHSEED`), truncated to a signed 64-bit `Py_hash_t` with the
value `-1` remapped to `-2`, and `hash("") = 0`.  The model makes the
process key an explicit parameter, which is exactly what makes the
cross-process stability question statable.  64-bit words are `Nat`
reduced modulo `2^64`.
-/

/-- `2^64`, the word modulus of siphash. -/
def w64 : Nat := 18446744073709551616

/-- Wrapping 64-bit addition. -/
def wadd (a b : Nat) : Nat := (a + b) % w64

/-- 64-bit left rotation (argument assumed `< 2^64`). -/
def wrotl (x n : Nat) : Nat :=
  ((x <<< n) % w64) ||| (x >>> (64 - n))

/-- One siphash round (the `SINGLE_ROUND` of CPython's `pyhash.c`). -/
def sipRound : Nat × Nat × Nat × Nat → Nat × Nat × Nat × Nat :=
  fun v =>
    let v0 := wadd v.1 v.2.1
    let v1 := wrotl v.2.1 13
    let v1 := v1 ^^^ v0
    let v0 := wrotl v0 32
    let v2 := wadd v.2.2.1 v.2.2.2
    let v3 := wrotl v.2.2.2 16
    let v3 := v3 ^^^ v2
    let v0 := wadd v0 v3
    let v3 := wrotl v3 21
    let v3 := v3 ^^^ v0
    let v2 := wadd v2 v1
    let v1 := wrotl v1 17
    let v1 := v1 ^^^ v2
    let v2 := wrotl v2 32
    (v0, v1, v2, v3)

/-- Little-endian load of up to eight bytes into a 64-bit word. -/
def leLoad : List Nat → Nat
  | [] => 0
  | b :: rest => (b % 256) + 256 * leLoad rest

/-- The compression loop: fold full 8-byte little-endian words into the
state with one `sipRound` each (siphash-1-3 uses a single round per
word), returning the final state and the leftover bytes. -/
def sipBody : Nat × Nat × Nat × Nat → List Nat → (Nat × Nat × Nat × Nat) × List Nat
  | v, b0 :: b1 :: b2 :: b3 :: b4 :: b5 :: b6 :: b7 :: rest =>
      let mi := leLoad [b0, b1, b2, b3, b4, b5, b6, b7]
      let v := (v.1, v.2.1, v.2.2.1, v.2.2.2 ^^^ mi)
      let v := sipRound v
      let v := (v.1 ^^^ mi, v.2.1, v.2.2.1, v.2.2.2)
      sipBody v rest
  | v, other => (v, other)

/-- `pysiphash13(k0, k1, bytes)` from CPython's `pyhash.c`: one
compression round per word, three finalisation rounds. -/
def pysiphash13 (k0 k1 : Nat) (bytes : List Nat) : Nat :=
  let kk0 := k0 % w64
  let kk1 := k1 % w64
  let v0 := 0x736f6d6570736575 ^^^ kk0
  let v1 := 0x646f72616e646f6d ^^^ kk1
  let v2 := 0x6c7967656e657261 ^^^ kk0
  let v3 := 0x7465646279746573 ^^^ kk1
  let r := sipBody (v0, v1, v2, v3) bytes
  let b := ((bytes.length % 256) * 0x0100000000000000) % w64 ||| leLoad r.2
  let v := (r.1.1, r.1.2.1, r.1.2.2.1, r.1.2.2.2 ^^^ b)
  let v := sipRound v
  let v := (v.1 ^^^ b, v.2.1, v.2.2.1 ^^^ 0xff, v.2.2.2)
  let v := sipRound (sipRound (sipRound v))
  (v.1 ^^^ v.2.1) ^^^ (v.2.2.1 ^^^ v.2.2.2)

/-- The byte buffer CPython hashes for a `str`.  For ASCII strings (all
prompts considered here) the compact one-byte representation equals the
code points. -/
def strBytes (s : String) : List Nat :=
  s.data.map Char.toNat

/-- CPython `hash` on `str`: `0` for the empty string, otherwise
`pysiphash13` under the process key, read as a signed 64-bit integer,
with `-1` remapped to `-2`. -/
def pyStrHash (k0 k1 : Nat) (s : String) : Int :=
  if s.data = [] then 0
  else
    let t := pysiphash13 k0 k1 (strBytes s)
    let signed : Int := if t < 9223372036854775808 then (t : Int) else (t : Int) - (w64 : Int)
    if signed = -1 then -2 else signed

/-- `server.py` line 225: `seed = hash(user_prompt) % 100` (Python `%`
with a positive modulus is Euclidean, i.e. `Int.emod`). -/
def deriveSeed (k0 k1 : Nat) (s : String) : Int :=
  Int.emod (pyStrHash k0 k1 s) 100

/-!
## Taxonomy data

The taxonomy itself lives in `sanrio.olog.yaml`, a data file of this
repository that is not among the provided sources; only the loader and
the consuming code are.  The instance lists below are therefore
modelled from the spec.
-/

/-- A flattened taxonomy dimension, the record produced by
`OlogLoader.get_taxonomy` for each type with an `instances` list. -/
structure Dimension where
  description : String
  instances : List String
  properties : List (String × String)
deriving DecidableEq

/-- Modelled from the spec: the `HeadShape` instance list of the missing
`sanrio.olog.yaml`.  Section 4.3 makes every rule result and fallback a
declared instance, with the round/soft-orb instance the first declared
(default) one; the instance ids are the literal ids in `server.py`. -/
def headShapeInstances : List String :=
  ["large_round_orb", "elongated_teardrop", "cat_like_curved", "minimalist_blob",
   "simplified_geometric", "wide_and_flat", "ovoid_with_point"]

/-- Modelled from the spec: the `BodyProportion` instance list of the
missing `sanrio.olog.yaml`; the balanced 50/50 instance is the declared
default, the rest are the rule-result ids of `server.py`. -/
def bodyProportionInstances : List String :=
  ["balanced_cute_50_50", "tiny_torso_large_head", "body_focused_30_70",
   "extended_and_fluid", "limbless_blob", "head_dominant_80_20"]

/-- Modelled from the spec: the `ColorTriad` instance list of the missing
`sanrio.olog.yaml`; the default triad first, then the triads of the
exact colour lookup table in `server.py`. -/
def colorTriadInstances : List String :=
  ["soft_pink_lavender_mint", "dusty_rose_sage_cream", "butter_yellow_peach_blue",
   "lavender_mint_sky_blue", "pale_lavender_pearl_white", "coral_mint_cream"]

/-- Modelled from the spec: the `FacialStyle` instance list of the
missing `sanrio.olog.yaml`; the default style first, then the styles of
the archetype lookup table in `server.py`. -/
def facialStyleInstances : List String :=
  ["dot_eyes_curved_smile", "closed_happy_eyes", "worried_upturned_eyes",
   "closed_curved_eyes", "sparkle_mischievous_grin", "wide_dreamy_eyes",
   "focused_straight_gaze"]

/-- Modelled from the spec: the `SizeCategory` instance list of the
missing `sanrio.olog.yaml`: the four size instances named in section 4.3
of the spec, with ids as in `server.py`. -/
def sizeCategoryInstances : List String :=
  ["small_plush_toy", "small_decorative", "medium_standard", "large_display"]

/-- The loaded `TAXONOMY` of `server.py` (dimension name to flattened
dimension record), assembled from the modelled instance lists. -/
def TAXONOMY : List (String × Dimension) :=
  [("HeadShape", ⟨"", headShapeInstances, []⟩),
   ("BodyProportion", ⟨"", bodyProportionInstances, []⟩),
   ("ColorTriad", ⟨"", colorTriadInstances, []⟩),
   ("FacialStyle", ⟨"", facialStyleInstances, []⟩),
   ("SizeCategory", ⟨"", sizeCategoryInstances, []⟩)]

/-!
## Archetype catalogue and classifier
-/

/-- An archetype entry of the intentionality olog, with the fields the
server reads (`.get` with defaults; per section 3 of the spec every
archetype record carries these fields, so an entry is never an empty —
falsy — dict). -/
structure Arche where
  core_intention : String
  composition_principle : String
  why_this_works : String
  sensory_principles : List String
  proportion_rules : List (String × String)
  design_intent_keywords : List String
  forbidden_combinations : List String
  examples : List String
deriving DecidableEq

/-- The record corresponding to the empty dict `{}` that
`ARCHETYPES.get(..., {})` falls back to. -/
def emptyArche : Arche :=
  ⟨"", "", "", [], [], [], [], []⟩

/-- An archetype catalogue: the `ARCHETYPES` dict of `server.py`, in
insertion (iteration) order. -/
abbrev Catalogue := List (String × Arche)

/-- `any(kw in prompt_lower for kw in keywords)` in `server.py` line 215. -/
def archetypeMatches (prompt_lower : String) (a : Arche) : Bool :=
  a.design_intent_keywords.any fun kw => strContains prompt_lower kw

/-- The classification loop of `server.py` lines 213-218: walk the
catalogue in iteration order, stop at the first archetype one of whose
keywords occurs in the lowered prompt. -/
def classifyLoop : Catalogue → String → Option (String × Arche)
  | [], _ => none
  | (n, a) :: rest, pl =>
      if archetypeMatches pl a then some (n, a) else classifyLoop rest pl

/-- Lines 210-222: the loop result, or the fixed default
`joyful_character_archetype` (with `ARCHETYPES.get(default, {})` for the
record) when nothing matched. -/
def inferredPair (cat : Catalogue) (prompt_lower : String) : String × Arche :=
  match classifyLoop cat prompt_lower with
  | some p => p
  | none =>
      ("joyful_character_archetype",
       (((cat.find? fun x => x.1 == "joyful_character_archetype").map fun x => x.2).getD emptyArche))

/-- The classifier as seen from a caller: lower-case the prompt
(line 206) and run the catalogue scan. -/
def classifyPrompt (cat : Catalogue) (user_prompt : String) : String :=
  (inferredPair cat (asciiLower user_prompt)).1

/-!
## Intent resolution (`_map_intent_to_design_choices`, lines 42-147)
-/

/-- One concrete instance id per taxonomy dimension. -/
structure DesignChoices where
  head_shape : String
  body_proportion : String
  facial_style : String
  color_triad : String
  size_category : String
deriving DecidableEq

/-- Exact-key lookup with default: Python `mapping.get(k, dflt)` for the
fixed string-to-string tables. -/
def lookupD (m : List (String × String)) (k dflt : String) : String :=
  ((m.find? fun x => x.1 == k).map fun x => x.2).getD dflt

/-- The `color_mapping` table of lines 108-118. -/
def colorMapping : List (String × String) :=
  [("muted", "dusty_rose_sage_cream"),
   ("dusty", "dusty_rose_sage_cream"),
   ("desaturated", "dusty_rose_sage_cream"),
   ("warm", "butter_yellow_peach_blue"),
   ("cozy", "butter_yellow_peach_blue"),
   ("cool", "lavender_mint_sky_blue"),
   ("ethereal", "pale_lavender_pearl_white"),
   ("vivid", "coral_mint_cream"),
   ("pastel", "soft_pink_lavender_mint")]

/-- The `facial_mapping` table of lines 123-131. -/
def facialMapping : List (String × String) :=
  [("joyful_character_archetype", "dot_eyes_curved_smile"),
   ("melancholic_character_archetype", "closed_happy_eyes"),
   ("anxious_character_archetype", "worried_upturned_eyes"),
   ("sleepy_character_archetype", "closed_curved_eyes"),
   ("mischievous_character_archetype", "sparkle_mischievous_grin"),
   ("dreamy_character_archetype", "wide_dreamy_eyes"),
   ("determined_character_archetype", "focused_straight_gaze")]

/-- `_map_intent_to_design_choices` (lines 42-147).  The five intent
fields are fetched with default `""` and lowered in source order
(`weight_feeling`, `primary_shape`, `size_implication`, `color_feeling`,
`inferred_emotional_tone`); a non-string field raises `AttributeError`
at its `.lower()` call.  The first-match-wins `if`-chains and the two
exact lookup tables follow, with the head-shape fallback being
`head_shapes[0]` from the initialisation block (lines 61-67; the
modelled list is non-empty, so the `getD` default is never taken). -/
def mapIntentToDesignChoices (design_intent : Dict) : Except PyErr DesignChoices :=
  let head_shapes := headShapeInstances
  match pyLower (dictGet design_intent "weight_feeling" (PyVal.pyStr "")) with
  | .error e => .error e
  | .ok weight_feeling =>
  match pyLower (dictGet design_intent "primary_shape" (PyVal.pyStr "")) with
  | .error e => .error e
  | .ok primary_shape =>
  match pyLower (dictGet design_intent "size_implication" (PyVal.pyStr "")) with
  | .error e => .error e
  | .ok size_implication =>
  match pyLower (dictGet design_intent "color_feeling" (PyVal.pyStr "")) with
  | .error e => .error e
  | .ok color_feeling =>
  match pyLower (dictGet design_intent "inferred_emotional_tone" (PyVal.pyStr "")) with
  | .error e => .error e
  | .ok inferred_tone =>
    let head_shape :=
      if strContains weight_feeling "droop" || strContains primary_shape "droop" then
        "elongated_teardrop"
      else if strContains primary_shape "curved" || strContains primary_shape "flowing" then
        "cat_like_curved"
      else if strContains primary_shape "blob" || strContains primary_shape "amorphous" then
        "minimalist_blob"
      else if strContains primary_shape "geometric" || strContains primary_shape "sharp" then
        "simplified_geometric"
      else if strContains primary_shape "wide" || strContains primary_shape "flat" then
        "wide_and_flat"
      else if strContains primary_shape "pointed" || strContains primary_shape "spike" then
        "ovoid_with_point"
      else if strContains weight_feeling "round" || strContains weight_feeling "soft" then
        "large_round_orb"
      else head_shapes.getD 0 ""
    let body_proportion :=
      if strContains size_implication "tiny" || strContains size_implication "insignificant"
          || strContains weight_feeling "miniature" then
        "tiny_torso_large_head"
      else if strContains weight_feeling "weighted" || strContains weight_feeling "heavy"
          || strContains weight_feeling "grounded" then
        "body_focused_30_70"
      else if strContains weight_feeling "fluid" || strContains weight_feeling "flowing"
          || strContains weight_feeling "extended" then
        "extended_and_fluid"
      else if strContains weight_feeling "limbless" || strContains weight_feeling "blob" then
        "limbless_blob"
      else if strContains size_implication "head-heavy" || strContains weight_feeling "top-heavy" then
        "head_dominant_80_20"
      else "balanced_cute_50_50"
    let color_triad := lookupD colorMapping color_feeling "soft_pink_lavender_mint"
    let facial_style := lookupD facialMapping inferred_tone "dot_eyes_curved_smile"
    let size_category :=
      if strContains size_implication "tiny" || strContains size_implication "pocket"
          || strContains size_implication "miniature" then
        "small_plush_toy"
      else if strContains size_implication "small" || strContains size_implication "delicate" then
        "small_decorative"
      else if strContains size_implication "medium" || strContains size_implication "standard" then
        "medium_standard"
      else if strContains size_implication "large" || strContains size_implication "prominent" then
        "large_display"
      else "medium_standard"
    .ok ⟨head_shape, body_proportion, facial_style, color_triad, size_category⟩

/-- `_get_design_rationale` (lines 150-173): one clause per triggering
cue, fallback sentence when no clause applies, joined with `"; "`.  The
intent fields are fetched and lowered as in the source, so a non-string
field raises `AttributeError` here too. -/
def getDesignRationale (design_choices : DesignChoices) (design_intent : Dict) : Except PyErr String :=
  match pyLower (dictGet design_intent "weight_feeling" (PyVal.pyStr "")) with
  | .error e => .error e
  | .ok weight_feeling =>
  match pyLower (dictGet design_intent "color_feeling" (PyVal.pyStr "")) with
  | .error e => .error e
  | .ok color_feeling =>
  match pyLower (dictGet design_intent "size_implication" (PyVal.pyStr "")) with
  | .error e => .error e
  | .ok size_implication =>
    let parts :=
      (if strContains weight_feeling "droop" then
        ["The " ++ design_choices.head_shape ++ " head shape conveys drooping and introspection"]
      else []) ++
      (if strContains weight_feeling "weighted" then
        ["The " ++ design_choices.body_proportion ++ " proportion grounds the character's weight"]
      else []) ++
      (if strContains color_feeling "muted" then
        ["The " ++ design_choices.color_triad ++ " palette reflects muted emotional tone"]
      else []) ++
      (if strContains size_implication "small" then
        ["The " ++ design_choices.size_category ++ " reflects vulnerability and intimacy"]
      else [])
    let parts :=
      if parts = [] then ["Design choices selected to match emotional intent"] else parts
    .ok (joinSep "; " parts)

/-!
## The facade: `_generate_sanrio_character_impl` (lines 180-317)
-/

/-- The process environment a request reads: the per-process hash secret
of CPython and the catalogue loaded at startup (the taxonomy is the
fixed `TAXONOMY` above). -/
structure Env where
  hashK0 : Nat
  hashK1 : Nat
  archetypes : Catalogue

/-- The process-global mutable state a request touches: the `random`
module's generator.  The server seeds it (line 226) and never draws from
it, so the state is summarised by the last seed set. -/
structure GlobalState where
  randomLastSeed : Option Int
deriving DecidableEq

/-- The design-specification record returned by the server (line 260
onward).  The purely constant fields of the source record (the fixed
`aesthetic` sentence, `universal_principles` list and `olog_source`
metadata, identical in every response) are not repeated here. -/
structure DesignSpec where
  character_name : String
  emotional_tone : String
  design_seed : Int
  user_prompt : String
  head_shape : String
  body_proportion : String
  facial_style : String
  size_category : String
  color_triad : String
  archetype : String
  core_intention : String
  composition_principle : String
  design_rationale : String
  why_this_works : String
  head_description : String
  body_description : String
  facial_description : String
  size_note : String
  color_note : String
deriving DecidableEq

/-- What one call to the implementation produces: the returned value or
the raised exception, the global state afterwards, and the caller's
`design_intent` object afterwards (line 230 writes into it). -/
structure GenOutcome where
  result : Except PyErr DesignSpec
  state : GlobalState
  intentAfter : Option Dict

instance {ε α : Type} [DecidableEq ε] [DecidableEq α] : DecidableEq (Except ε α) := fun a b =>
  match a, b with
  | .error e1, .error e2 =>
      if h : e1 = e2 then .isTrue (by rw [h]) else .isFalse (by simp [h])
  | .ok v1, .ok v2 =>
      if h : v1 = v2 then .isTrue (by rw [h]) else .isFalse (by simp [h])
  | .error _, .ok _ => .isFalse (by simp)
  | .ok _, .error _ => .isFalse (by simp)

instance : DecidableEq GenOutcome := fun a b =>
  match a, b with
  | ⟨r1, s1, i1⟩, ⟨r2, s2, i2⟩ =>
      if h : r1 = r2 ∧ s1 = s2 ∧ i1 = i2 then
        .isTrue (by obtain ⟨h1, h2, h3⟩ := h; rw [h1, h2, h3])
      else
        .isFalse (by intro he; injection he; simp_all)

/-- The `name_prefixes` table of lines 247-255. -/
def archPrefixTable : List (String × String) :=
  [("joyful_character_archetype", "Joy"),
   ("melancholic_character_archetype", "Melan"),
   ("anxious_character_archetype", "Anx"),
   ("sleepy_character_archetype", "Sleep"),
   ("mischievous_character_archetype", "Misc"),
   ("dreamy_character_archetype", "Dream"),
   ("determined_character_archetype", "Det")]

/-- The hard-coded default choice block of lines 236-242 (the
no-intent/falsy-intent path). -/
def defaultChoices : DesignChoices :=
  ⟨"large_round_orb", "balanced_cute_50_50", "dot_eyes_curved_smile",
   "soft_pink_lavender_mint", "small_plush_toy"⟩

/-- Steps 4-5 of the implementation (lines 246-317): name synthesis —
`prompt_lower.split()[0][:3]`, raising `IndexError` when the lowered
prompt has no token — followed by assembly of the final record. -/
def finishAssemble (st2 : GlobalState) (user_prompt prompt_lower inferred_tone : String)
    (inferred_arche : Arche) (seed : Int) (design_choices : DesignChoices)
    (design_rationale : String) (ia : Option Dict) : GenOutcome :=
  match pySplitWs prompt_lower with
  | [] => { result := .error PyErr.indexError, state := st2, intentAfter := ia }
  | w :: _ =>
    let first_word := strTake w 3
    let pfx := lookupD archPrefixTable inferred_tone "Sanrio"
    let nm := pfx ++ pyCapitalize first_word
    let spec : DesignSpec :=
      { character_name := nm
        emotional_tone := inferred_tone
        design_seed := seed
        user_prompt := user_prompt
        head_shape := design_choices.head_shape
        body_proportion := design_choices.body_proportion
        facial_style := design_choices.facial_style
        size_category := design_choices.size_category
        color_triad := design_choices.color_triad
        archetype := inferred_tone
        core_intention := inferred_arche.core_intention
        composition_principle := inferred_arche.composition_principle
        design_rationale := design_rationale
        why_this_works := inferred_arche.why_this_works
        head_description := "Use a " ++ underscoreToSpace design_choices.head_shape ++ " shape for the head"
        body_description := "Body should be " ++ underscoreToSpace design_choices.body_proportion
        facial_description := "Face features: " ++ underscoreToSpace design_choices.facial_style
        size_note := "Character size: " ++ underscoreToSpace design_choices.size_category
        color_note := "Use " ++ underscoreToSpace design_choices.color_triad ++ " color palette" }
    { result := .ok spec, state := st2, intentAfter := ia }

/-- `_generate_sanrio_character_impl` (lines 180-317): classify the
prompt, derive and set the seed (the one global-state write), then —
when the intent dict is truthy, i.e. present and non-empty — write the
inferred tone into the caller's dict and resolve it through the
morphisms, otherwise take the hard-coded default block; finally
synthesise the name and assemble the record. -/
def generateImpl (env : Env) (st : GlobalState) (user_prompt : String)
    (design_intent : Option Dict) : GenOutcome :=
  let prompt_lower := asciiLower user_prompt
  let inferred := inferredPair env.archetypes prompt_lower
  let inferred_tone := inferred.1
  let inferred_arche := inferred.2
  let seed := deriveSeed env.hashK0 env.hashK1 user_prompt
  let st2 : GlobalState := { randomLastSeed := some seed }
  match design_intent with
  | none =>
      finishAssemble st2 user_prompt prompt_lower inferred_tone inferred_arche seed
        defaultChoices ("Archetype-based selection: " ++ inferred_tone) none
  | some d =>
      if d = [] then
        finishAssemble st2 user_prompt prompt_lower inferred_tone inferred_arche seed
          defaultChoices ("Archetype-based selection: " ++ inferred_tone) (some d)
      else
        let d2 := dictSet d "inferred_emotional_tone" (PyVal.pyStr inferred_tone)
        match mapIntentToDesignChoices d2 with
        | .error e => { result := .error e, state := st2, intentAfter := some d2 }
        | .ok design_choices =>
          match getDesignRationale design_choices d2 with
          | .error e => { result := .error e, state := st2, intentAfter := some d2 }
          | .ok design_rationale =>
              finishAssemble st2 user_prompt prompt_lower inferred_tone inferred_arche seed
                design_choices design_rationale (some d2)

/-!
## The loader (`tools/olog_loader.py`)
-/

/-- A type entry of a parsed taxonomy document: `description` and
`instances` keys may be absent; `instancesList = some l` means the
`instances` key is present with a list value (the
`isinstance(type_def['instances'], list)` test of the source). -/
structure OlogTypeDef where
  description : Option String
  instancesList : Option (List String)
  properties : List (String × String)
deriving DecidableEq

/-- A parsed aesthetic olog document: its `olog.types` mapping. -/
structure OlogDoc where
  types : List (String × OlogTypeDef)
deriving DecidableEq

/-- The only failures `OlogLoader._load_ologs` re-raises: a missing file
and a YAML parse error.  No structural-validation error exists in the
loader. -/
inductive LoadError where
  | fileNotFound : LoadError
  | yamlError : LoadError
deriving DecidableEq

/-- `OlogLoader._load_ologs` (lines 42-62): load the aesthetic then the
intentionality document, propagating only read/parse failures. -/
def loadOlogs (aesthetic : Except LoadError OlogDoc) (intentionality : Except LoadError Catalogue) :
    Except LoadError (OlogDoc × Catalogue) :=
  match aesthetic with
  | .error e => .error e
  | .ok a =>
    match intentionality with
    | .error e => .error e
    | .ok i => .ok (a, i)

/-- `OlogLoader.get_taxonomy` (lines 64-85): keep exactly the types
whose `instances` key holds a list, flattening each to a `Dimension`
record; no emptiness or duplicate check is performed. -/
def getTaxonomy (doc : OlogDoc) : List (String × Dimension) :=
  doc.types.filterMap fun x =>
    match x.2.instancesList with
    | some l => some (x.1, ⟨(x.2.description).getD "", l, x.2.properties⟩)
    | none => none

/-!
## `get_archetype_rules` (server.py lines 340-373, olog_loader.py 103-106)
-/

/-- The formatted rules record the tool returns for a known archetype. -/
structure RulesRecord where
  archetype : String
  core_intention : String
  composition_principle : String
  why_this_works : String
  sensory_principles : List String
  proportion_rules : List (String × String)
  design_keywords : List String
  forbidden_combinations : List String
  examples : List String
deriving DecidableEq

/-- The tool's result: either the `{"error": ...}` dict for an unknown
archetype, or the rules record. -/
inductive RulesResult where
  | errorUnknown : String → RulesResult
  | ok : RulesRecord → RulesResult
deriving DecidableEq

/-- `OlogLoader.get_archetype_rules` (lines 103-106): plain dict `.get`
on the loaded instances. -/
def ologGetArchetypeRules (cat : Catalogue) (archetype_name : String) : Option Arche :=
  (cat.find? fun x => x.1 == archetype_name).map fun x => x.2

/-- The `get_archetype_rules` tool (server.py lines 340-373): a lookup
miss yields the typed error dict, a hit is formatted into the rules
record (per section 3 of the spec a catalogue entry is a non-empty
record, so the source's falsiness test `if not archetype` coincides
with the `None` test modelled here). -/
def getArchetypeRulesTool (cat : Catalogue) (emotional_tone : String) : RulesResult :=
  match ologGetArchetypeRules cat emotional_tone with
  | none => .errorUnknown ("Unknown archetype: " ++ emotional_tone)
  | some a => .ok
      { archetype := emotional_tone
        core_intention := a.core_intention
        composition_principle := a.composition_principle
        why_this_works := a.why_this_works
        sensory_principles := a.sensory_principles
        proportion_rules := a.proportion_rules
        design_keywords := a.design_intent_keywords
        forbidden_combinations := a.forbidden_combinations
        examples := a.examples }

/-!
## Closure predicates and concrete evaluation data
-/

/-- The instance list a dimension name carries in the loaded taxonomy. -/
def dimInstances (dimension_name : String) : List String :=
  ((TAXONOMY.find? fun x => x.1 == dimension_name).map fun x => x.2.instances).getD []

/-- Every field of a resolved choice is a declared instance of its
dimension. -/
def choicesClosed (c : DesignChoices) : Prop :=
  c.head_shape ∈ dimInstances "HeadShape" ∧
  c.body_proportion ∈ dimInstances "BodyProportion" ∧
  c.facial_style ∈ dimInstances "FacialStyle" ∧
  c.color_triad ∈ dimInstances "ColorTriad" ∧
  c.size_category ∈ dimInstances "SizeCategory"

/-- The same closure property read off the returned specification. -/
def specChoicesClosed (r : DesignSpec) : Prop :=
  r.head_shape ∈ dimInstances "HeadShape" ∧
  r.body_proportion ∈ dimInstances "BodyProportion" ∧
  r.facial_style ∈ dimInstances "FacialStyle" ∧
  r.color_triad ∈ dimInstances "ColorTriad" ∧
  r.size_category ∈ dimInstances "SizeCategory"

/-- Closure of a call outcome: whenever a specification is returned, its
dimension values are declared instances (an exceptional outcome returns
no choice). -/
def resultClosed : Except PyErr DesignSpec → Prop
  | .ok r => specChoicesClosed r
  | .error _ => True

/-- A dict whose values are all Python strings. -/
def stringDict (d : Dict) : Prop :=
  ∀ kv ∈ d, PyVal.isStr kv.2 = true

/-- A concrete two-archetype catalogue for evaluating the theorems. -/
def demoMelArche : Arche :=
  ⟨"comfort in sadness", "low and grounded", "shared feeling", [], [],
   ["sad", "melancholy"], [], []⟩

/-- A concrete joyful archetype (the catalogue default). -/
def demoJoyArche : Arche :=
  ⟨"pure delight", "round and open", "open shapes smile", [], [],
   ["happy", "joy"], [], []⟩

/-- A concrete catalogue with the melancholic archetype iterated before
the joyful one. -/
def demoCat : Catalogue :=
  [("melancholic_character_archetype", demoMelArche),
   ("joyful_character_archetype", demoJoyArche)]

/-- A concrete process environment (hash secret `(0, 0)`). -/
def demoEnv : Env := ⟨0, 0, demoCat⟩

/-- A parsed taxonomy document declaring a dimension with zero
instances (the `instances` key present, holding the empty list). -/
def badAestheticDoc : OlogDoc :=
  ⟨[("HeadShape", ⟨none, some [], []⟩)]⟩

/-!
## Helper lemmas
-/

theorem lookupD_mem (m : List (String × String)) (k dflt : String) :
    lookupD m k dflt = dflt ∨ lookupD m k dflt ∈ m.map Prod.snd := by
  unfold lookupD
  cases h : m.find? fun x => x.1 == k with
  | none => left; rfl
  | some x =>
      right
      show x.2 ∈ m.map Prod.snd
      exact List.mem_map_of_mem Prod.snd (List.mem_of_find?_eq_some h)

theorem dictLookup_val_mem (d : Dict) (k : String) (v : PyVal)
    (h : dictLookup d k = some v) : ∃ k0, (k0, v) ∈ d := by
  induction d with
  | nil => exact Option.noConfusion h
  | cons kv rest ih =>
      obtain ⟨k0, v0⟩ := kv
      simp only [dictLookup] at h
      by_cases hk : k0 = k
      · rw [if_pos hk] at h
        injection h with h
        subst h
        exact ⟨k0, List.mem_cons_self _ _⟩
      · rw [if_neg hk] at h
        obtain ⟨k1, hm⟩ := ih h
        exact ⟨k1, List.mem_cons_of_mem _ hm⟩

theorem stringDict_get_isStr (d : Dict) (k : String) (hd : stringDict d) :
    (dictGet d k (PyVal.pyStr "")).isStr = true := by
  unfold dictGet
  cases h : dictLookup d k with
  | none => rfl
  | some v =>
      obtain ⟨k0, hm⟩ := dictLookup_val_mem d k v h
      exact hd (k0, v) hm

theorem isStr_pyLower_ok (v : PyVal) (h : v.isStr = true) : ∃ s, pyLower v = .ok s := by
  cases v with
  | pyStr s => exact ⟨asciiLower s, rfl⟩
  | pyInt n => simp [PyVal.isStr] at h

theorem stringDict_lower_ok (d : Dict) (k : String) (hd : stringDict d) :
    ∃ s, pyLower (dictGet d k (PyVal.pyStr "")) = .ok s :=
  isStr_pyLower_ok _ (stringDict_get_isStr d k hd)

theorem dictSet_stringDict (d : Dict) (k : String) (s : String) (hd : stringDict d) :
    stringDict (dictSet d k (PyVal.pyStr s)) := by
  induction d with
  | nil =>
      intro kv hkv
      simp only [dictSet, List.mem_singleton] at hkv
      subst hkv; rfl
  | cons kv0 rest ih =>
      intro kv hkv
      obtain ⟨k0, v0⟩ := kv0
      have hd0 : PyVal.isStr v0 = true := hd (k0, v0) (List.mem_cons_self _ _)
      have hdr : stringDict rest := fun x hx => hd x (List.mem_cons_of_mem _ hx)
      simp only [dictSet] at hkv
      by_cases hk : k0 = k
      · rw [if_pos hk] at hkv
        rcases List.mem_cons.mp hkv with h1 | h2
        · subst h1; rfl
        · exact hd kv (List.mem_cons_of_mem _ h2)
      · rw [if_neg hk] at hkv
        rcases List.mem_cons.mp hkv with h1 | h2
        · subst h1; exact hd0
        · exact ih hdr kv h2

theorem mapIntent_ok (d : Dict) (hd : stringDict d) :
    ∃ c, mapIntentToDesignChoices d = .ok c := by
  obtain ⟨w, hw⟩ := stringDict_lower_ok d "weight_feeling" hd
  obtain ⟨p, hp⟩ := stringDict_lower_ok d "primary_shape" hd
  obtain ⟨si, hsi⟩ := stringDict_lower_ok d "size_implication" hd
  obtain ⟨cf, hcf⟩ := stringDict_lower_ok d "color_feeling" hd
  obtain ⟨t, ht⟩ := stringDict_lower_ok d "inferred_emotional_tone" hd
  unfold mapIntentToDesignChoices
  rw [hw, hp, hsi, hcf, ht]
  exact ⟨_, rfl⟩

theorem rationale_ok (c : DesignChoices) (d : Dict) (hd : stringDict d) :
    ∃ s, getDesignRationale c d = .ok s := by
  obtain ⟨w, hw⟩ := stringDict_lower_ok d "weight_feeling" hd
  obtain ⟨cf, hcf⟩ := stringDict_lower_ok d "color_feeling" hd
  obtain ⟨si, hsi⟩ := stringDict_lower_ok d "size_implication" hd
  unfold getDesignRationale
  rw [hw, hcf, hsi]
  exact ⟨_, rfl⟩

theorem mapIntent_closed (d : Dict) (c : DesignChoices)
    (h : mapIntentToDesignChoices d = .ok c) : choicesClosed c := by
  unfold mapIntentToDesignChoices at h
  cases hw : pyLower (dictGet d "weight_feeling" (PyVal.pyStr "")) with
  | error e => rw [hw] at h; cases h
  | ok w =>
  cases hp : pyLower (dictGet d "primary_shape" (PyVal.pyStr "")) with
  | error e => rw [hw, hp] at h; cases h
  | ok p =>
  cases hsi : pyLower (dictGet d "size_implication" (PyVal.pyStr "")) with
  | error e => rw [hw, hp, hsi] at h; cases h
  | ok si =>
  cases hcf : pyLower (dictGet d "color_feeling" (PyVal.pyStr "")) with
  | error e => rw [hw, hp, hsi, hcf] at h; cases h
  | ok cf =>
  cases ht : pyLower (dictGet d "inferred_emotional_tone" (PyVal.pyStr "")) with
  | error e => rw [hw, hp, hsi, hcf, ht] at h; cases h
  | ok t =>
  rw [hw, hp, hsi, hcf, ht] at h
  simp only [Except.ok.injEq] at h
  subst h
  refine ⟨?_, ?_, ?_, ?_, ?_⟩
  · dsimp only
    split_ifs <;> decide
  · dsimp only
    split_ifs <;> decide
  · dsimp only
    rcases lookupD_mem facialMapping t "dot_eyes_curved_smile" with h1 | h1
    · rw [h1]; decide
    · exact (by decide : ∀ v ∈ List.map Prod.snd facialMapping, v ∈ dimInstances "FacialStyle") _ h1
  · dsimp only
    rcases lookupD_mem colorMapping cf "soft_pink_lavender_mint" with h1 | h1
    · rw [h1]; decide
    · exact (by decide : ∀ v ∈ List.map Prod.snd colorMapping, v ∈ dimInstances "ColorTriad") _ h1
  · dsimp only
    split_ifs <;> decide

theorem classifyLoop_eq_find (cat : Catalogue) (pl : String) :
    classifyLoop cat pl = cat.find? fun x => archetypeMatches pl x.2 := by
  induction cat with
  | nil => rfl
  | cons x rest ih =>
      obtain ⟨n, a⟩ := x
      cases hm : archetypeMatches pl a with
      | true => simp [classifyLoop, List.find?, hm]
      | false => simp [classifyLoop, List.find?, hm, ih]

theorem classifyLoop_earliest (cat : Catalogue) (pl : String) :
    ∀ (i : Nat) (hi : i < cat.length),
      archetypeMatches pl (cat.get ⟨i, hi⟩).2 = true →
      ∃ k, ∃ hk : k < cat.length, k ≤ i ∧
        archetypeMatches pl (cat.get ⟨k, hk⟩).2 = true ∧
        classifyLoop cat pl = some (cat.get ⟨k, hk⟩) := by
  induction cat with
  | nil => intro i hi; exact absurd hi (by simp)
  | cons x rest ih =>
      obtain ⟨n, a⟩ := x
      intro i hi hm
      by_cases hx : archetypeMatches pl a = true
      · refine ⟨0, by simp, Nat.zero_le _, hx, ?_⟩
        simp only [classifyLoop]
        rw [if_pos hx]
        rfl
      · cases i with
        | zero => exact absurd hm hx
        | succ j =>
            have hj : j < rest.length := Nat.lt_of_succ_lt_succ hi
            obtain ⟨k, hk, hki, hkm, heq⟩ := ih j hj hm
            refine ⟨k + 1, Nat.succ_lt_succ hk, Nat.succ_le_succ hki, hkm, ?_⟩
            simp only [classifyLoop]
            rw [if_neg hx]
            exact heq

theorem classifyLoop_none (cat : Catalogue) (pl : String)
    (h : ∀ x ∈ cat, archetypeMatches pl x.2 = false) :
    classifyLoop cat pl = none := by
  rw [classifyLoop_eq_find]
  exact List.find?_eq_none.mpr fun x hx => by simp [h x hx]

theorem finishAssemble_closed (st2 : GlobalState) (up pl tone : String) (a : Arche)
    (seed : Int) (dc : DesignChoices) (rat : String) (ia : Option Dict)
    (hc : choicesClosed dc) :
    resultClosed (finishAssemble st2 up pl tone a seed dc rat ia).result := by
  unfold finishAssemble
  cases pySplitWs pl with
  | nil => trivial
  | cons w rest =>
      obtain ⟨h1, h2, h3, h4, h5⟩ := hc
      exact ⟨h1, h2, h3, h4, h5⟩

theorem finishAssemble_ok (st2 : GlobalState) (up pl tone : String) (a : Arche)
    (seed : Int) (dc : DesignChoices) (rat : String) (ia : Option Dict)
    (h : pySplitWs pl ≠ []) :
    ∃ r, (finishAssemble st2 up pl tone a seed dc rat ia).result = .ok r ∧
      r.head_shape = dc.head_shape ∧ r.body_proportion = dc.body_proportion ∧
      r.facial_style = dc.facial_style ∧ r.color_triad = dc.color_triad ∧
      r.size_category = dc.size_category := by
  unfold finishAssemble
  cases hsp : pySplitWs pl with
  | nil => exact absurd hsp h
  | cons w rest => exact ⟨_, rfl, rfl, rfl, rfl, rfl, rfl⟩

theorem finishAssemble_intentAfter (st2 : GlobalState) (up pl tone : String) (a : Arche)
    (seed : Int) (dc : DesignChoices) (rat : String) (ia : Option Dict) :
    (finishAssemble st2 up pl tone a seed dc rat ia).intentAfter = ia := by
  unfold finishAssemble
  cases pySplitWs pl <;> rfl

theorem finishAssemble_state (st2 : GlobalState) (up pl tone : String) (a : Arche)
    (seed : Int) (dc : DesignChoices) (rat : String) (ia : Option Dict) :
    (finishAssemble st2 up pl tone a seed dc rat ia).state = st2 := by
  unfold finishAssemble
  cases pySplitWs pl <;> rfl

/-!
## Claims
-/

/-- C1: for every prompt string, two independent calls to the generator
with no design intent, within one process (same environment: same loaded
catalogue, same hash secret) and from any two global states, produce
identical results — in particular identical character name, identical
choices for every taxonomy dimension, and identical seed.  The call
reads nothing from the mutable global state (it only writes the random
seed), so the result component is state-independent. -/
theorem sanrio_C1_determinism (env : Env) (s1 s2 : GlobalState) (p : String) :
    (generateImpl env s1 p none).result = (generateImpl env s2 p none).result := rfl

/-- C2: for every prompt and every design intent, whenever the generator
returns a specification, each dimension value of the resolved choice is
a member of that dimension's declared instance list in the loaded
taxonomy. -/
theorem sanrio_C2_closure (env : Env) (st : GlobalState) (p : String) (i : Option Dict) :
    resultClosed (generateImpl env st p i).result := by
  have hdef : choicesClosed defaultChoices := by
    unfold choicesClosed
    refine ⟨?_, ?_, ?_, ?_, ?_⟩ <;> decide
  unfold generateImpl
  rcases i with _ | d
  · exact finishAssemble_closed _ _ _ _ _ _ _ _ _ hdef
  · dsimp only
    by_cases hd : d = []
    · rw [if_pos hd]
      exact finishAssemble_closed _ _ _ _ _ _ _ _ _ hdef
    · rw [if_neg hd]
      cases hm : mapIntentToDesignChoices
          (dictSet d "inferred_emotional_tone"
            (PyVal.pyStr (inferredPair env.archetypes (asciiLower p)).1)) with
      | error e => exact trivial
      | ok c =>
          dsimp only
          cases hr : getDesignRationale c
              (dictSet d "inferred_emotional_tone"
                (PyVal.pyStr (inferredPair env.archetypes (asciiLower p)).1)) with
          | error e => exact trivial
          | ok s =>
              dsimp only
              exact finishAssemble_closed _ _ _ _ _ _ _ _ _ (mapIntent_closed _ _ hm)

/-- C3: the seed is always an integer in `[0, 100)`, but it is not a
function of the prompt's character content alone: it also depends on the
per-process hash secret, because the source derives it from CPython's
salted `hash` builtin.  Two processes with different secrets (here
`(0,0)` and `(0,1)`) give different seeds for the same prompt `"a"`. -/
theorem sanrio_C3_seed_behavior :
    (∀ (k0 k1 : Nat) (s : String), 0 ≤ deriveSeed k0 k1 s ∧ deriveSeed k0 k1 s < 100) ∧
    deriveSeed 0 0 "a" ≠ deriveSeed 0 1 "a" := by
  constructor
  · intro k0 k1 s
    unfold deriveSeed
    exact ⟨Int.emod_nonneg _ (by norm_num), Int.emod_lt_of_pos _ (by norm_num)⟩
  · decide

/-- C7: a taxonomy document in which a declared dimension has zero
instances loads without any error — the loader propagates only
file/parse failures (`LoadError` has no structural-validation variant,
matching the absence of any `InvalidTaxonomyEntry` in the code) — and
`get_taxonomy` then serves the zero-instance dimension as part of the
flattened taxonomy. -/
theorem sanrio_C7_no_validation :
    loadOlogs (.ok badAestheticDoc) (.ok demoCat) = .ok (badAestheticDoc, demoCat) ∧
    getTaxonomy badAestheticDoc = [("HeadShape", ⟨"", [], []⟩)] :=
  ⟨rfl, rfl⟩

/-- C9: the intent with `weight_feeling` "drooping, weighted" and
`primary_shape` "drooping or curved" (all other fields absent) resolves,
by first-match-wins precedence, to the elongated/teardrop head shape and
the weighted 30/70 body proportion (the remaining dimensions take their
fallbacks). -/
theorem sanrio_C9_resolver_case :
    mapIntentToDesignChoices
      [("weight_feeling", PyVal.pyStr "drooping, weighted"),
       ("primary_shape", PyVal.pyStr "drooping or curved")] =
    .ok ⟨"elongated_teardrop", "body_focused_30_70", "dot_eyes_curved_smile",
         "soft_pink_lavender_mint", "medium_standard"⟩ := by
  decide

/-- C4 counterexample: `generateDesign` does fail for some inputs.  A
whitespace-only prompt raises `IndexError` at name synthesis
(`prompt_lower.split()[0]`), and a non-string recognised intent field
raises `AttributeError` at its `.lower()` call — rather than being
treated as absent text. -/
theorem sanrio_C4_counterexample :
    (generateImpl demoEnv ⟨none⟩ "" none).result = .error PyErr.indexError ∧
    (generateImpl demoEnv ⟨none⟩ "hello"
        (some [("weight_feeling", PyVal.pyInt 3)])).result = .error PyErr.attrError := by
  constructor <;> decide

/-- C4 amended: under a valid loaded repository, `generateDesign`
succeeds for every prompt containing at least one non-whitespace token
and every design intent whose field values are strings; unexpected
string-valued fields are ignored.  (A whitespace-only prompt and a
non-string field fail, per the counterexample.) -/
theorem sanrio_C4_amended (env : Env) (st : GlobalState) (p : String) (i : Option Dict)
    (hp : pySplitWs (asciiLower p) ≠ [])
    (hi : ∀ d, i = some d → stringDict d) :
    ∃ r, (generateImpl env st p i).result = .ok r := by
  unfold generateImpl
  rcases i with _ | d
  · obtain ⟨r, hr, -⟩ := finishAssemble_ok _ _ _ _ _ _ defaultChoices _ _ hp
    exact ⟨r, hr⟩
  · dsimp only
    by_cases hd : d = []
    · rw [if_pos hd]
      obtain ⟨r, hr, -⟩ := finishAssemble_ok _ _ _ _ _ _ defaultChoices _ _ hp
      exact ⟨r, hr⟩
    · rw [if_neg hd]
      have hsd : stringDict (dictSet d "inferred_emotional_tone"
          (PyVal.pyStr (inferredPair env.archetypes (asciiLower p)).1)) :=
        dictSet_stringDict d _ _ (hi d rfl)
      obtain ⟨c, hc⟩ := mapIntent_ok _ hsd
      rw [hc]
      dsimp only
      obtain ⟨s, hs⟩ := rationale_ok c _ hsd
      rw [hs]
      dsimp only
      obtain ⟨r, hr, -⟩ := finishAssemble_ok _ _ _ _ _ _ c _ _ hp
      exact ⟨r, hr⟩

/-- C4 witness: a concrete prompt with a token and a concrete
string-valued intent for which the amended totality theorem applies. -/
theorem sanrio_C4_witness :
    ∃ r, (generateImpl demoEnv ⟨none⟩ "hello"
      (some [("weight_feeling", PyVal.pyStr "droop")])).result = .ok r :=
  sanrio_C4_amended demoEnv ⟨none⟩ "hello" (some [("weight_feeling", PyVal.pyStr "droop")])
    (by decide)
    (by intro d hd kv hkv
        injection hd with hd
        subst hd
        simp only [List.mem_singleton] at hkv
        subst hkv
        rfl)

/-- C5: the classifier lower-cases the prompt and scans the catalogue in
iteration order for any keyword occurring as a substring — so (a) its
result is the name of the first matching entry (default name when none
matches), (b) when an archetype at position `i` matches — in particular
when archetypes at positions `i < j` both match — the returned name is
that of a matching archetype at a position `k ≤ i`, and (c) when no
archetype matches, the fixed default `joyful_character_archetype` is
returned. -/
theorem sanrio_C5_classifier (cat : Catalogue) (p : String) :
    (classifyPrompt cat p =
      (((cat.find? fun x => archetypeMatches (asciiLower p) x.2).map fun x => x.1).getD
        "joyful_character_archetype")) ∧
    (∀ (i j : Nat) (hi : i < cat.length) (hj : j < cat.length), i < j →
      archetypeMatches (asciiLower p) (cat.get ⟨i, hi⟩).2 = true →
      archetypeMatches (asciiLower p) (cat.get ⟨j, hj⟩).2 = true →
      ∃ k, ∃ hk : k < cat.length, k ≤ i ∧
        archetypeMatches (asciiLower p) (cat.get ⟨k, hk⟩).2 = true ∧
        classifyPrompt cat p = (cat.get ⟨k, hk⟩).1) ∧
    ((∀ x ∈ cat, archetypeMatches (asciiLower p) x.2 = false) →
      classifyPrompt cat p = "joyful_character_archetype") := by
  refine ⟨?_, ?_, ?_⟩
  · unfold classifyPrompt inferredPair
    rw [classifyLoop_eq_find]
    cases h : cat.find? fun x => archetypeMatches (asciiLower p) x.2 with
    | none => rfl
    | some x => rfl
  · intro i j hi hj hij hmi hmj
    obtain ⟨k, hk, hki, hkm, heq⟩ := classifyLoop_earliest cat (asciiLower p) i hi hmi
    refine ⟨k, hk, hki, hkm, ?_⟩
    unfold classifyPrompt inferredPair
    rw [heq]
  · intro h
    unfold classifyPrompt inferredPair
    rw [classifyLoop_none cat (asciiLower p) h]

/-- C5 witness: on the concrete catalogue, the prompt "Sad but happy"
contains keywords of both archetypes and classifies to the earlier
(melancholic) one, and a prompt matching nothing falls back to the
default name. -/
theorem sanrio_C5_witness :
    classifyPrompt demoCat "Sad but happy" = "melancholic_character_archetype" ∧
    classifyPrompt demoCat "zzz" = "joyful_character_archetype" := by
  constructor
  · obtain ⟨k, hk, hki, hkm, heq⟩ :=
      (sanrio_C5_classifier demoCat "Sad but happy").2.1 0 1 (by decide) (by decide)
        (by decide) (by decide) (by decide)
    have hk0 : k = 0 := Nat.le_zero.mp hki
    subst hk0
    exact heq
  · exact (sanrio_C5_classifier demoCat "zzz").2.2 (by decide)

/-- C6 counterexample: for the empty intent `{}` the generator takes the
falsy-intent branch and resolves the size category to the small-plush
instance, not the documented medium/standard fallback. -/
theorem sanrio_C6_counterexample :
    ((generateImpl demoEnv ⟨none⟩ "x" (some [])).result.map fun r => r.size_category) =
      .ok "small_plush_toy" ∧
    ("small_plush_toy" : String) ≠ "medium_standard" := by
  constructor <;> decide

/-- C6 amended: for an empty intent (`{}`) and a prompt with at least
one token, every dimension still resolves to a defined value — head
shape, body proportion, facial style and colour triad to their
documented fallbacks — but the size category resolves to
`small_plush_toy`, not the medium/standard fallback documented for the
size dimension's rule chain. -/
theorem sanrio_C6_amended (env : Env) (st : GlobalState) (p : String)
    (hp : pySplitWs (asciiLower p) ≠ []) :
    ∃ r, (generateImpl env st p (some [])).result = .ok r ∧
      r.head_shape = "large_round_orb" ∧
      r.body_proportion = "balanced_cute_50_50" ∧
      r.facial_style = "dot_eyes_curved_smile" ∧
      r.color_triad = "soft_pink_lavender_mint" ∧
      r.size_category = "small_plush_toy" := by
  unfold generateImpl
  dsimp only
  rw [if_pos rfl]
  obtain ⟨r, hr, h1, h2, h3, h4, h5⟩ := finishAssemble_ok _ _ _ _ _ _ defaultChoices _ _ hp
  exact ⟨r, hr, h1, h2, h3, h4, h5⟩

/-- C6 witness: the amended statement evaluated at the concrete prompt
"x". -/
theorem sanrio_C6_witness :
    ∃ r, (generateImpl demoEnv ⟨none⟩ "x" (some [])).result = .ok r ∧
      r.head_shape = "large_round_orb" ∧
      r.body_proportion = "balanced_cute_50_50" ∧
      r.facial_style = "dot_eyes_curved_smile" ∧
      r.color_triad = "soft_pink_lavender_mint" ∧
      r.size_category = "small_plush_toy" :=
  sanrio_C6_amended demoEnv ⟨none⟩ "x" (by decide)

/-- C8: for every name not bound in the archetype catalogue, the rules
tool returns the typed unknown-archetype result (the `{"error": ...}`
payload) — the lookup is total and no exception path exists. -/
theorem sanrio_C8_unknown (cat : Catalogue) (nm : String)
    (h : ∀ x ∈ cat, x.1 ≠ nm) :
    getArchetypeRulesTool cat nm = .errorUnknown ("Unknown archetype: " ++ nm) := by
  unfold getArchetypeRulesTool ologGetArchetypeRules
  have hf : (cat.find? fun x => x.1 == nm) = none :=
    List.find?_eq_none.mpr fun x hx => by simpa using h x hx
  rw [hf]
  rfl

/-- C8 witness: the unknown-archetype result for the concrete lookup
`get_archetype_rules("nonexistent_archetype")`. -/
theorem sanrio_C8_witness :
    getArchetypeRulesTool demoCat "nonexistent_archetype" =
      .errorUnknown ("Unknown archetype: " ++ "nonexistent_archetype") :=
  sanrio_C8_unknown demoCat "nonexistent_archetype" (by decide)

/-- C10 counterexample: a call with a non-empty intent dict mutates
state visible outside the call — it appends the inferred tone to the
caller-supplied `design_intent` record and reseeds the process-global
random generator. -/
theorem sanrio_C10_counterexample :
    (generateImpl demoEnv ⟨none⟩ "x" (some [("mood", PyVal.pyStr "m")])).intentAfter ≠
      some [("mood", PyVal.pyStr "m")] ∧
    (generateImpl demoEnv ⟨none⟩ "x" (some [("mood", PyVal.pyStr "m")])).state ≠ ⟨none⟩ := by
  constructor <;> decide

/-- C10 amended: the exact frame of a call — beyond reading the
immutable tables it performs exactly two writes: it stores the inferred
tone under `inferred_emotional_tone` in the caller's intent dict
(when that dict is present and non-empty, i.e. truthy) and it reseeds
the global random generator with the derived seed; everything else,
including the result, depends only on the inputs. -/
theorem sanrio_C10_frame (env : Env) (st : GlobalState) (p : String) (i : Option Dict) :
    ((generateImpl env st p i).intentAfter =
      (match i with
       | none => none
       | some d =>
           if d = [] then some d
           else some (dictSet d "inferred_emotional_tone"
             (PyVal.pyStr (classifyPrompt env.archetypes p))))) ∧
    (generateImpl env st p i).state = ⟨some (deriveSeed env.hashK0 env.hashK1 p)⟩ := by
  unfold generateImpl
  rcases i with _ | d
  · exact ⟨finishAssemble_intentAfter _ _ _ _ _ _ _ _ _,
      finishAssemble_state _ _ _ _ _ _ _ _ _⟩
  · dsimp only
    by_cases hd : d = []
    · rw [if_pos hd]
      simp only [if_pos hd]
      exact ⟨finishAssemble_intentAfter _ _ _ _ _ _ _ _ _,
        finishAssemble_state _ _ _ _ _ _ _ _ _⟩
    · rw [if_neg hd]
      simp only [if_neg hd]
      cases hm : mapIntentToDesignChoices
          (dictSet d "inferred_emotional_tone"
            (PyVal.pyStr (inferredPair env.archetypes (asciiLower p)).1)) with
      | error e => exact ⟨rfl, rfl⟩
      | ok c =>
          dsimp only
          cases hr : getDesignRationale c
              (dictSet d "inferred_emotional_tone"
                (PyVal.pyStr (inferredPair env.archetypes (asciiLower p)).1)) with
          | error e => exact ⟨rfl, rfl⟩
          | ok s =>
              dsimp only
              exact ⟨finishAssemble_intentAfter _ _ _ _ _ _ _ _ _,
                finishAssemble_state _ _ _ _ _ _ _ _ _⟩

end Sanrio
